import Mathlib

/-!
Shallow embedding of the PsycheVoyage pipeline delivery layer:
the `SendReply` pipeline node (`app/pipelines/message/send_reply.py`),
the wellness-content manager (`app/wellness_content_manager.py`) and the
Discord bot singleton accessor (`app/services/discord_bot.py`).

External effects are made explicit:
* the Discord delivery capability (`send_message_sync`) is a parameter
  `send : Nat → Except String Unit` giving, for each 0-based call index,
  either success or the raised exception's message;
* `time.sleep` calls are recorded as a list of requested durations;
* `datetime.utcnow()` is a `Nat` parameter `now`;
* environment variables are `Option String` parameters;
* the mock content store (module-level `mock_content_store`) is threaded
  as an explicit list.
-/

set_option maxRecDepth 4096

/-- Python truthiness of an optional string: `None` and `""` are falsy.
Used for `if not channel_id:` / `if content_id:` in `post_content`. -/
def pyTruthy : Option String → Bool
  | none => false
  | some s => !(s == "")

/-- `response.strip()` is empty, i.e. `not response or not response.strip()`
in `SendReply.process` / `post_content`: the string is empty or consists
only of whitespace. -/
def isBlank (s : String) : Bool :=
  s.toList.all Char.isWhitespace

/-- Rendering of `last_error` inside the exhaustion f-string: Python prints
`None` for an unset value and the message itself otherwise. -/
def strOfLastError : Option String → String
  | none => "None"
  | some s => s

/-- Output recorded in the context by the `AnalyzeMessage` node; only the
`intent` field is read by `SendReply.process`. -/
structure AnalyzeOutput where
  intent : String
deriving Repr, DecidableEq

/-- Output recorded in the context by the `GenerateResponse` node; only the
`response` field is read by `SendReply.process`. -/
structure GenerateOutput where
  response : String
deriving Repr, DecidableEq

/-- `SendReply.ResponseModel` (pydantic model in `send_reply.py`). -/
structure ResponseModel where
  success : Bool
  error_message : Option String := none
  channel_id : Option Int := none
  message_sent : Option String := none
deriving Repr, DecidableEq

/-- The originating event; `SendReply.process` reads only `channel_id`. -/
structure Event where
  channel_id : Int
deriving Repr, DecidableEq

/-- Modelled from the spec: `core/task.py` is not under `src/`. Per the
spec, a `TaskContext` owns one event plus a mapping from node name to that
node's recorded output. The three entries the delivery claims touch
(`"AnalyzeMessage"`, `"GenerateResponse"` and the `SendReply` node's own
entry) are embedded as optional fields: `none` means the key is absent
from `task_context.nodes`, `some o` means the key maps to
`{"response_model": o}`. -/
structure TaskContext where
  event : Event
  analyzeMessage : Option AnalyzeOutput := none
  generateResponse : Option GenerateOutput := none
  sendReply : Option ResponseModel := none
deriving Repr, DecidableEq

/-- A `success=False` result carrying an error message, as built at each
failure site of `SendReply.process`. -/
def ResponseModel.failure (msg : String) : ResponseModel :=
  { success := false, error_message := some msg }

/-- The retry loop of `SendReply.process` (`for attempt in range(max_retries)`).
Arguments after `maxRetries`: attempts remaining, current 0-based `attempt`
index, current `retry_delay`, current `last_error`.
Returns the `ResponseModel` recorded, the number of delivery calls made,
and the list of `time.sleep` durations requested, in order. -/
def sendAttemptLoop (send : Nat → Except String Unit) (channel_id : Int)
    (response : String) (maxRetries : Nat) :
    Nat → Nat → Nat → Option String → ResponseModel × Nat × List Nat
  | 0, _, _, last_error =>
    (ResponseModel.failure ("Failed to send message after " ++ toString maxRetries ++ " attempts. Last error: " ++ strOfLastError last_error), 0, [])
  | remaining + 1, attempt, retry_delay, _ =>
    match send attempt with
    | .ok _ =>
      ({ success := true, channel_id := some channel_id, message_sent := some response }, 1, [])
    | .error e =>
      if remaining == 0 then
        let rest := sendAttemptLoop send channel_id response maxRetries
          remaining (attempt + 1) retry_delay (some e)
        (rest.1, rest.2.1 + 1, rest.2.2)
      else
        let rest := sendAttemptLoop send channel_id response maxRetries
          remaining (attempt + 1) (retry_delay * 2) (some e)
        (rest.1, rest.2.1 + 1, retry_delay :: rest.2.2)

/-- `SendReply.process` (`send_reply.py`, lines 49-162). `discord_bot`
models the `if not self.discord_bot` check. The outer `try/except`
catches the two `ValueError`s raised for missing upstream entries and
records them as `success=False` results; the retry loop handles delivery
failures itself, so no exception escapes. Returns the updated context
(the node's own entry written under `self.node_name`), the number of
delivery calls made, and the `time.sleep` durations requested. -/
def SendReply.process (send : Nat → Except String Unit) (discord_bot : Bool)
    (task_context : TaskContext) : TaskContext × Nat × List Nat :=
  match task_context.analyzeMessage with
  | none =>
    ({ task_context with sendReply := some (ResponseModel.failure "Error in SendReply node: AnalyzeMessage node results not found in task context") }, 0, [])
  | some analyze =>
    match task_context.generateResponse with
    | none =>
      ({ task_context with sendReply := some (ResponseModel.failure "Error in SendReply node: GenerateResponse node results not found in task context") }, 0, [])
    | some generated =>
      if analyze.intent == "ignore" then
        ({ task_context with sendReply := some { success := true, error_message := some "Message ignored as per intent" } }, 0, [])
      else
        let channel_id := task_context.event.channel_id
        let response := generated.response
        if isBlank response then
          ({ task_context with sendReply := some (ResponseModel.failure "Empty response received") }, 0, [])
        else if !discord_bot then
          ({ task_context with sendReply := some (ResponseModel.failure "Discord bot not initialized") }, 0, [])
        else
          let r := sendAttemptLoop send channel_id response 3 3 0 1 none
          ({ task_context with sendReply := some r.1 }, r.2.1, r.2.2)

/-- `PostResult` (pydantic model in `wellness_content_manager.py`). -/
structure PostResult where
  success : Bool
  error_message : Option String := none
  channel_id : String
  content_id : Option String := none
  posted_at : Option Nat := none
deriving Repr, DecidableEq

/-- One record of the module-level `mock_content_store` used when the
database is unavailable (`DATABASE_AVAILABLE = False` branch). -/
structure MockItem where
  id : String
  content : String
  content_type : String
  channel_id : String
  posted : Bool
  posted_at : Option Nat := none
deriving Repr, DecidableEq

/-- `WellnessContentManager.update_content_posted_status`, mock-store
branch (the in-`src` code path; the database branch delegates to the
external persistence collaborator and falls back to the same mock logic).
Walks the store, updates the first item whose `id` matches: sets
`posted`, and sets `posted_at` only when `posted and posted_at`.
Returns the updated store and the boolean result (`True` iff found). -/
def update_content_posted_status (content_id : String) (posted : Bool)
    (posted_at : Option Nat) : List MockItem → List MockItem × Bool
  | [] => ([], false)
  | item :: rest =>
    if item.id == content_id then
      (({ item with posted := posted, posted_at := if posted && posted_at.isSome then posted_at else item.posted_at }) :: rest, true)
    else
      let r := update_content_posted_status content_id posted posted_at rest
      (item :: r.1, r.2)

/-- The retry loop of `WellnessContentManager.post_content`. `act k` is the
body of attempt `k` up to and including `send_message_sync` (the
`int(channel_id)` conversion happens inside the per-attempt `try`, so a
parse failure is an attempt failure). On a successful attempt the store is
updated via `update_content_posted_status` when `content_id` is truthy.
Returns the `PostResult`, the resulting store, the number of attempt
executions, and the `time.sleep` durations requested. -/
def postAttemptLoop (act : Nat → Except String Unit) (store : List MockItem)
    (channel_id : String) (content_id : Option String) (now : Nat) (maxRetries : Nat) :
    Nat → Nat → Nat → Option String → PostResult × List MockItem × Nat × List Nat
  | 0, _, _, last_error =>
    ({ success := false, error_message := some ("Failed to send wellness content after " ++ toString maxRetries ++ " attempts. Last error: " ++ strOfLastError last_error), channel_id := channel_id, content_id := content_id }, store, 0, [])
  | remaining + 1, attempt, retry_delay, _ =>
    match act attempt with
    | .ok _ =>
      let posted_at := now
      let store1 :=
        if pyTruthy content_id then
          (update_content_posted_status (content_id.getD "") true (some posted_at) store).1
        else store
      ({ success := true, channel_id := channel_id, content_id := content_id, posted_at := some posted_at }, store1, 1, [])
    | .error e =>
      if remaining == 0 then
        let rest := postAttemptLoop act store channel_id content_id now maxRetries remaining (attempt + 1) retry_delay (some e)
        (rest.1, rest.2.1, rest.2.2.1 + 1, rest.2.2.2)
      else
        let rest := postAttemptLoop act store channel_id content_id now maxRetries remaining (attempt + 1) (retry_delay * 2) (some e)
        (rest.1, rest.2.1, rest.2.2.1 + 1, retry_delay :: rest.2.2.2)

/-- Accumulating decimal parse: `none` as soon as a non-digit appears. -/
def digitsToNat : List Char → Nat → Option Nat
  | [], acc => some acc
  | c :: rest, acc =>
    if c.isDigit then digitsToNat rest (acc * 10 + (c.toNat - 48)) else none

/-- Model of Python `int(channel_id)`: parses an optionally signed decimal
string, `none` when `int()` would raise `ValueError` (Python additionally
tolerates surrounding whitespace and digit-group underscores, which no
channel identifier uses). -/
def pyInt (s : String) : Option Int :=
  match s.toList with
  | [] => none
  | '-' :: [] => none
  | '-' :: c :: rest => (digitsToNat (c :: rest) 0).map (fun n => -(n : Int))
  | '+' :: [] => none
  | '+' :: c :: rest => (digitsToNat (c :: rest) 0).map (fun n => (n : Int))
  | l => (digitsToNat l 0).map (fun n => (n : Int))

/-- The channel-id resolution of `post_content`: use the parameter when
truthy, else `os.getenv("WELLNESS_CHANNEL_ID")` when truthy, else none
(which produces the configuration-error result). -/
def resolveChannel (channel_id env_channel : Option String) : Option String :=
  if pyTruthy channel_id then channel_id
  else if pyTruthy env_channel then env_channel
  else none

/-- `WellnessContentManager.post_content` (`wellness_content_manager.py`,
lines 565-676). `send` is `send_message_sync` behaviour per attempt,
`env_channel` is `os.getenv("WELLNESS_CHANNEL_ID")`, `discord_bot` the
`if not self.discord_bot` check, `now` the value of `datetime.utcnow()`,
`store` the mock content store. Returns the `PostResult`, the store after
the run, the number of delivery attempts executed, and the sleeps. -/
def post_content (send : Nat → Except String Unit) (discord_bot : Bool)
    (env_channel : Option String) (now : Nat) (store : List MockItem)
    (content : String) (channel_id : Option String) (content_id : Option String) :
    PostResult × List MockItem × Nat × List Nat :=
  if isBlank content then
    ({ success := false, error_message := some "Empty content received", channel_id := if pyTruthy channel_id then channel_id.getD "" else "unknown" }, store, 0, [])
  else
    match resolveChannel channel_id env_channel with
    | none =>
      ({ success := false, error_message := some "Channel ID not found in parameters or environment variables", channel_id := "unknown" }, store, 0, [])
    | some ch =>
      if !discord_bot then
        ({ success := false, error_message := some "Discord bot not initialized", channel_id := ch }, store, 0, [])
      else
        let act : Nat → Except String Unit := fun k =>
          match pyInt ch with
          | none => .error ("invalid literal for int() with base 10: " ++ ch)
          | some _ => send k
        postAttemptLoop act store ch content_id now 3 3 0 1 none

/-- `ContentType` enumeration (`wellness_content_manager.py`, lines 43-55),
constructors in Python declaration order. -/
inductive ContentType where
  | meditation_tip
  | weekly_challenge
  | mindfulness_practice
  | emotional_wellness
  | somatic_exercise
  | breathwork_technique
  | sleep_optimization
  | gratitude_practice
  | boundary_setting
  | stress_management
deriving Repr, DecidableEq, BEq

/-- The string value of each `ContentType` member. -/
def ContentType.value : ContentType → String
  | .meditation_tip => "meditation tip"
  | .weekly_challenge => "weekly challenge"
  | .mindfulness_practice => "mindfulness practice"
  | .emotional_wellness => "emotional wellness"
  | .somatic_exercise => "somatic exercise"
  | .breathwork_technique => "breathwork technique"
  | .sleep_optimization => "sleep optimization"
  | .gratitude_practice => "gratitude practice"
  | .boundary_setting => "boundary setting"
  | .stress_management => "stress management"

/-- `list(ContentType)`: the members in declaration (iteration) order. -/
def ContentType.all : List ContentType :=
  [.meditation_tip, .weekly_challenge, .mindfulness_practice, .emotional_wellness, .somatic_exercise, .breathwork_technique, .sleep_optimization, .gratitude_practice, .boundary_setting, .stress_management]

/-- The `for content_type in ContentType: if content_type.value == last_type_str`
loop of `determine_content_type`: first member whose value equals the string. -/
def matchContentType (s : String) : Option ContentType :=
  ContentType.all.find? (fun ct => ct.value == s)

/-- One item of the `previous_content` list handed to
`determine_content_type`: a `(content, content_type, updated_at)` tuple. -/
structure PrevItem where
  content : String
  content_type : String
  updated_at : Nat
deriving Repr, DecidableEq

/-- `WellnessContentManager.determine_content_type` (lines 196-241):
empty history yields the default `MEDITATION_TIP`; otherwise the most
recent item's type string is matched against the enum; a match advances
one step in declaration order wrapping around via
`(current_index + 1) % len(all_types)`; an unmatched string falls back to
`MEDITATION_TIP`. -/
def determine_content_type (previous_content : List PrevItem) : ContentType :=
  match previous_content with
  | [] => ContentType.meditation_tip
  | last_content :: _ =>
    match matchContentType last_content.content_type with
    | some last_type =>
      let all_types := ContentType.all
      let current_index := all_types.indexOf last_type
      let next_index := (current_index + 1) % all_types.length
      all_types.getD next_index ContentType.meditation_tip
    | none => ContentType.meditation_tip

/-- The type immediately following a given type in the fixed rotation
order, wrapping from the last member back to the first. Stated from the
spec's rotation description, to be compared with `determine_content_type`. -/
def nextTypeSpec : ContentType → ContentType
  | .meditation_tip => .weekly_challenge
  | .weekly_challenge => .mindfulness_practice
  | .mindfulness_practice => .emotional_wellness
  | .emotional_wellness => .somatic_exercise
  | .somatic_exercise => .breathwork_technique
  | .breathwork_technique => .sleep_optimization
  | .sleep_optimization => .gratitude_practice
  | .gratitude_practice => .boundary_setting
  | .boundary_setting => .stress_management
  | .stress_management => .meditation_tip

/-- `DiscordBot` connection-state fields touched by construction and
`enable_test_mode` (`services/discord_bot.py`). -/
structure DiscordBot where
  cmd_pref : String
  token : String
  is_ready : Bool
  is_connected : Bool
  test_mode : Bool
deriving Repr, DecidableEq

/-- `DiscordBot.__init__`: stores the token, flags start out `False`. -/
def DiscordBot.init (cmd_pref token : String) : DiscordBot :=
  { cmd_pref := cmd_pref, token := token, is_ready := false, is_connected := false, test_mode := false }

/-- `DiscordBot.enable_test_mode`: sets `test_mode`, `is_ready`,
`is_connected`. -/
def DiscordBot.enable_test_mode (b : DiscordBot) : DiscordBot :=
  { b with test_mode := true, is_ready := true, is_connected := true }

/-- `get_discord_bot` (`services/discord_bot.py`, lines 227-243). The
module-level `_discord_bot` global is passed and returned explicitly:
given the current global and the call's arguments, returns either the
`ValueError` message or the bot handed to the caller together with the
new global. -/
def get_discord_bot (state : Option DiscordBot) (token : Option String)
    (test_mode : Bool) : Except String (DiscordBot × Option DiscordBot) :=
  match state with
  | some b => .ok (b, some b)
  | none =>
    match token with
    | none => .error "Token is required when creating a new Discord bot instance"
    | some t =>
      let b0 := DiscordBot.init "!" t
      let b1 := if test_mode then b0.enable_test_mode else b0
      .ok (b1, some b1)

/-! Concrete inputs used by witnesses and counterexamples. -/

/-- Delivery capability that fails on the first `n` calls (with messages
`"e0"`, `"e1"`, ...) and succeeds from call `n` on. -/
def failsThenOk (n : Nat) : Nat → Except String Unit :=
  fun k => if k < n then Except.error ("e" ++ toString k) else Except.ok ()

/-- Delivery capability that fails on every call. -/
def alwaysFail : Nat → Except String Unit :=
  fun k => Except.error ("boom" ++ toString k)

/-- Delivery capability that succeeds on every call. -/
def alwaysOk : Nat → Except String Unit :=
  fun _ => Except.ok ()

/-- A well-formed context: both upstream entries present, intent not
`"ignore"`, non-blank generated response. -/
def okCtx : TaskContext :=
  { event := { channel_id := 42 }, analyzeMessage := some { intent := "respond" }, generateResponse := some { response := "hi there" } }

/-- A context whose intent is `"ignore"` but whose `GenerateResponse`
entry is missing. -/
def ctxIgnoreNoGenerate : TaskContext :=
  { event := { channel_id := 1 }, analyzeMessage := some { intent := "ignore" } }

/-- A context whose intent is `"ignore"`, with both upstream entries
present. -/
def ctxIgnoreWithGenerate : TaskContext :=
  { event := { channel_id := 1 }, analyzeMessage := some { intent := "ignore" }, generateResponse := some { response := "whatever" } }

/-- A context missing the `AnalyzeMessage` entry. -/
def ctxMissingAnalyze : TaskContext := { event := { channel_id := 1 } }

/-- A context with `AnalyzeMessage` present but `GenerateResponse`
missing. -/
def ctxMissingGenerate : TaskContext :=
  { event := { channel_id := 2 }, analyzeMessage := some { intent := "respond" } }

/-- A context whose generated response is whitespace only. -/
def ctxBlankResponse : TaskContext :=
  { event := { channel_id := 3 }, analyzeMessage := some { intent := "respond" }, generateResponse := some { response := "   " } }

/-- A concrete one-item mock store. -/
def store0 : List MockItem :=
  [{ id := "7", content := "x", content_type := "meditation tip", channel_id := "123", posted := false }]

/-! Helper lemmas about the `post_content` retry loop. -/

/-- If the retry loop of `post_content` ends in a failed result, the mock
store is unchanged: the posted-status update only ever runs on the
success path. -/
theorem post_loop_store_of_fail (act : Nat → Except String Unit)
    (ch : String) (cid : Option String) (now mr : Nat) :
    ∀ (remaining attempt delay : Nat) (le : Option String) (store : List MockItem),
    ((postAttemptLoop act store ch cid now mr remaining attempt delay le).1.success = false →
      (postAttemptLoop act store ch cid now mr remaining attempt delay le).2.1 = store) := by
  intro remaining
  induction remaining with
  | zero => intro attempt delay le store _; rfl
  | succ n ih =>
    intro attempt delay le store hfalse
    rcases hact : act attempt with e | u
    · by_cases hn : n = 0
      · subst hn
        simp [postAttemptLoop, hact]
      · simp [postAttemptLoop, hact, hn] at hfalse ⊢
        exact ih (attempt + 1) (delay * 2) (some e) store hfalse
    · simp [postAttemptLoop, hact] at hfalse

/-- Without a `content_id` the retry loop of `post_content` never touches
the mock store (`if content_id:` is falsy). -/
theorem post_loop_store_of_none (act : Nat → Except String Unit)
    (ch : String) (now mr : Nat) :
    ∀ (remaining attempt delay : Nat) (le : Option String) (store : List MockItem),
    (postAttemptLoop act store ch none now mr remaining attempt delay le).2.1 = store := by
  intro remaining
  induction remaining with
  | zero => intro attempt delay le store; rfl
  | succ n ih =>
    intro attempt delay le store
    rcases hact : act attempt with e | u
    · by_cases hn : n = 0
      · subst hn
        simp [postAttemptLoop, hact]
      · simp [postAttemptLoop, hact, hn]
        exact ih (attempt + 1) (delay * 2) (some e) store
    · simp [postAttemptLoop, hact, pyTruthy]

/-! Claim theorems. -/

/-- C1: if the delivery capability fails on the first N attempts and
succeeds on attempt N+1 (0 ≤ N ≤ 2), `SendReply.process` makes exactly
N+1 delivery calls, never more than 3, and returns right after the
successful call with a success result carrying the delivered payload and
the target channel id; `post_content` likewise makes exactly N+1
attempts, at most 3, and returns a success result carrying the target
channel id. -/
theorem sendReply_retry_bound
    (send : Nat → Except String Unit) (N : Nat) (hN : N ≤ 2)
    (hfail : ∀ k, k < N → ∃ e, send k = Except.error e)
    (hsucc : send N = Except.ok ())
    (ctx : TaskContext) (a : AnalyzeOutput) (g : GenerateOutput)
    (ha : ctx.analyzeMessage = some a) (hg : ctx.generateResponse = some g)
    (hintent : (a.intent == "ignore") = false) (hresp : isBlank g.response = false)
    (env_channel : Option String) (now : Nat) (store : List MockItem)
    (content : String) (hcontent : isBlank content = false)
    (ch : String) (chn : Int) (hchn : pyInt ch = some chn) (hch : (ch == "") = false)
    (content_id : Option String) :
    ((SendReply.process send true ctx).2.1 = N + 1
      ∧ (SendReply.process send true ctx).2.1 ≤ 3
      ∧ (SendReply.process send true ctx).1.sendReply
          = some { success := true, channel_id := some ctx.event.channel_id, message_sent := some g.response })
    ∧ ((post_content send true env_channel now store content (some ch) content_id).2.2.1 = N + 1
      ∧ (post_content send true env_channel now store content (some ch) content_id).2.2.1 ≤ 3
      ∧ (post_content send true env_channel now store content (some ch) content_id).1.success = true
      ∧ (post_content send true env_channel now store content (some ch) content_id).1.channel_id = ch) := by
  interval_cases N
  · refine ⟨⟨?_, ?_, ?_⟩, ?_, ?_, ?_, ?_⟩ <;>
      simp [SendReply.process, post_content, postAttemptLoop, sendAttemptLoop, resolveChannel, ha, hg,
        hintent, hresp, hcontent, hch, hchn, hsucc, pyTruthy]
  · obtain ⟨e0, he0⟩ := hfail 0 (by norm_num)
    refine ⟨⟨?_, ?_, ?_⟩, ?_, ?_, ?_, ?_⟩ <;>
      simp [SendReply.process, post_content, postAttemptLoop, sendAttemptLoop, resolveChannel, ha, hg,
        hintent, hresp, hcontent, hch, hchn, hsucc, he0, pyTruthy]
  · obtain ⟨e0, he0⟩ := hfail 0 (by norm_num)
    obtain ⟨e1, he1⟩ := hfail 1 (by norm_num)
    refine ⟨⟨?_, ?_, ?_⟩, ?_, ?_, ?_, ?_⟩ <;>
      simp [SendReply.process, post_content, postAttemptLoop, sendAttemptLoop, resolveChannel, ha, hg,
        hintent, hresp, hcontent, hch, hchn, hsucc, he0, he1, pyTruthy]

/-- C1 witness: N = 1 with a concrete context, oracle and store. -/
theorem sendReply_retry_bound_witness :
    ((SendReply.process (failsThenOk 1) true okCtx).2.1 = 1 + 1
      ∧ (SendReply.process (failsThenOk 1) true okCtx).2.1 ≤ 3
      ∧ (SendReply.process (failsThenOk 1) true okCtx).1.sendReply
          = some { success := true, channel_id := some okCtx.event.channel_id, message_sent := some "hi there" })
    ∧ ((post_content (failsThenOk 1) true none 99 store0 "some content" (some "123") (some "7")).2.2.1 = 1 + 1
      ∧ (post_content (failsThenOk 1) true none 99 store0 "some content" (some "123") (some "7")).2.2.1 ≤ 3
      ∧ (post_content (failsThenOk 1) true none 99 store0 "some content" (some "123") (some "7")).1.success = true
      ∧ (post_content (failsThenOk 1) true none 99 store0 "some content" (some "123") (some "7")).1.channel_id = "123") := by
  have h := sendReply_retry_bound (failsThenOk 1) 1 (by decide)
    (by intro k hk; exact ⟨"e" ++ toString k, by simp [failsThenOk, hk]⟩)
    (by simp [failsThenOk]) okCtx { intent := "respond" } { response := "hi there" }
    (by rfl) (by rfl) (by decide) (by decide)
    none 99 store0 "some content" (by decide) "123" 123 (by decide) (by decide) (some "7")
  simpa [okCtx] using h

/-- C2: if the delivery capability fails on every attempt, the step makes
exactly 3 delivery calls, sleeps 1 then 2 time units (no sleep after the
last attempt), and returns normally with a failed result embedding the
last attempt's error — for both `SendReply.process` and `post_content`. -/
theorem sendReply_retry_exhaustion
    (send : Nat → Except String Unit) (e0 e1 e2 : String)
    (h0 : send 0 = Except.error e0) (h1 : send 1 = Except.error e1)
    (h2 : send 2 = Except.error e2)
    (ctx : TaskContext) (a : AnalyzeOutput) (g : GenerateOutput)
    (ha : ctx.analyzeMessage = some a) (hg : ctx.generateResponse = some g)
    (hintent : (a.intent == "ignore") = false) (hresp : isBlank g.response = false)
    (env_channel : Option String) (now : Nat) (store : List MockItem)
    (content : String) (hcontent : isBlank content = false)
    (ch : String) (chn : Int) (hchn : pyInt ch = some chn) (hch : (ch == "") = false)
    (content_id : Option String) :
    ((SendReply.process send true ctx).2.1 = 3
      ∧ (SendReply.process send true ctx).2.2 = [1, 2]
      ∧ (SendReply.process send true ctx).1.sendReply
          = some (ResponseModel.failure ("Failed to send message after 3 attempts. Last error: " ++ e2)))
    ∧ ((post_content send true env_channel now store content (some ch) content_id).2.2.1 = 3
      ∧ (post_content send true env_channel now store content (some ch) content_id).2.2.2 = [1, 2]
      ∧ (post_content send true env_channel now store content (some ch) content_id).1.success = false
      ∧ (post_content send true env_channel now store content (some ch) content_id).1.error_message
          = some ("Failed to send wellness content after 3 attempts. Last error: " ++ e2)) := by
  refine ⟨⟨?_, ?_, ?_⟩, ?_, ?_, ?_, ?_⟩ <;>
    simp [SendReply.process, post_content, postAttemptLoop, sendAttemptLoop, resolveChannel, ha, hg,
      hintent, hresp, hcontent, hch, hchn, h0, h1, h2, pyTruthy, strOfLastError,
      ResponseModel.failure] <;>
    rfl

/-- C2 witness: the always-failing oracle on a concrete context and store. -/
theorem sendReply_retry_exhaustion_witness :
    ((SendReply.process alwaysFail true okCtx).2.1 = 3
      ∧ (SendReply.process alwaysFail true okCtx).2.2 = [1, 2]
      ∧ (SendReply.process alwaysFail true okCtx).1.sendReply
          = some (ResponseModel.failure ("Failed to send message after 3 attempts. Last error: " ++ "boom2")))
    ∧ ((post_content alwaysFail true none 99 store0 "some content" (some "123") (some "7")).2.2.1 = 3
      ∧ (post_content alwaysFail true none 99 store0 "some content" (some "123") (some "7")).2.2.2 = [1, 2]
      ∧ (post_content alwaysFail true none 99 store0 "some content" (some "123") (some "7")).1.success = false
      ∧ (post_content alwaysFail true none 99 store0 "some content" (some "123") (some "7")).1.error_message
          = some ("Failed to send wellness content after 3 attempts. Last error: " ++ "boom2")) :=
  sendReply_retry_exhaustion alwaysFail "boom0" "boom1" "boom2" rfl rfl rfl
    okCtx { intent := "respond" } { response := "hi there" } rfl rfl (by decide) (by decide)
    none 99 store0 "some content" (by decide) "123" 123 (by decide) (by decide) (some "7")

/-- C3 counterexample: a context whose `AnalyzeMessage` intent is
`"ignore"` but whose `GenerateResponse` entry is absent. The upstream
presence checks run before the intent gate, so the node records a
`success=False` missing-node error, not the claimed `success=True`
ignored-intent result (the zero-call part does hold). -/
theorem sendReply_ignore_gate_counterexample :
    (SendReply.process alwaysOk true ctxIgnoreNoGenerate).2.1 = 0
    ∧ (SendReply.process alwaysOk true ctxIgnoreNoGenerate).1.sendReply
        = some (ResponseModel.failure "Error in SendReply node: GenerateResponse node results not found in task context")
    ∧ ¬ ((SendReply.process alwaysOk true ctxIgnoreNoGenerate).1.sendReply
        = some { success := true, error_message := some "Message ignored as per intent" }) := by
  refine ⟨rfl, rfl, ?_⟩
  decide

/-- C3 (amended): for every context whose `AnalyzeMessage` entry has
intent `"ignore"` and whose `GenerateResponse` entry is also present,
`SendReply.process` makes zero delivery calls and records under its own
node name a `success=True` result carrying the informational message
`"Message ignored as per intent"`. -/
theorem sendReply_ignore_gate_amended
    (send : Nat → Except String Unit) (discord_bot : Bool)
    (ctx : TaskContext) (a : AnalyzeOutput) (g : GenerateOutput)
    (ha : ctx.analyzeMessage = some a) (hg : ctx.generateResponse = some g)
    (hintent : a.intent = "ignore") :
    (SendReply.process send discord_bot ctx).2.1 = 0
    ∧ (SendReply.process send discord_bot ctx).1.sendReply
        = some { success := true, error_message := some "Message ignored as per intent" } := by
  constructor <;> simp [SendReply.process, ha, hg, hintent]

/-- C3 witness: the ignored-intent context with both entries present. -/
theorem sendReply_ignore_gate_amended_witness :
    (SendReply.process alwaysFail true ctxIgnoreWithGenerate).2.1 = 0
    ∧ (SendReply.process alwaysFail true ctxIgnoreWithGenerate).1.sendReply
        = some { success := true, error_message := some "Message ignored as per intent" } :=
  sendReply_ignore_gate_amended alwaysFail true ctxIgnoreWithGenerate
    { intent := "ignore" } { response := "whatever" } rfl rfl rfl

/-- C4: for every context with both upstream entries where the generated
response is empty or whitespace-only and intent is not `"ignore"`,
`SendReply.process` makes zero delivery calls and records a
`success=False` result with message `"Empty response received"`;
`post_content` likewise rejects blank content with zero attempts and a
`success=False` result with message `"Empty content received"`. -/
theorem sendReply_empty_response_guard
    (send : Nat → Except String Unit) (discord_bot : Bool)
    (ctx : TaskContext) (a : AnalyzeOutput) (g : GenerateOutput)
    (ha : ctx.analyzeMessage = some a) (hg : ctx.generateResponse = some g)
    (hintent : (a.intent == "ignore") = false) (hresp : isBlank g.response = true)
    (env_channel : Option String) (now : Nat) (store : List MockItem)
    (content : String) (hcontent : isBlank content = true)
    (channel_id : Option String) (content_id : Option String) :
    ((SendReply.process send discord_bot ctx).2.1 = 0
      ∧ (SendReply.process send discord_bot ctx).1.sendReply
          = some (ResponseModel.failure "Empty response received"))
    ∧ ((post_content send discord_bot env_channel now store content channel_id content_id).2.2.1 = 0
      ∧ (post_content send discord_bot env_channel now store content channel_id content_id).1.success = false
      ∧ (post_content send discord_bot env_channel now store content channel_id content_id).1.error_message
          = some "Empty content received") := by
  refine ⟨⟨?_, ?_⟩, ?_, ?_, ?_⟩ <;>
    simp [SendReply.process, post_content, ha, hg, hintent, hresp, hcontent,
      ResponseModel.failure]

/-- C4 witness: a whitespace-only generated response and blank content. -/
theorem sendReply_empty_response_guard_witness :
    ((SendReply.process alwaysOk true ctxBlankResponse).2.1 = 0
      ∧ (SendReply.process alwaysOk true ctxBlankResponse).1.sendReply
          = some (ResponseModel.failure "Empty response received"))
    ∧ ((post_content alwaysOk true none 99 store0 "  " (some "123") (some "7")).2.2.1 = 0
      ∧ (post_content alwaysOk true none 99 store0 "  " (some "123") (some "7")).1.success = false
      ∧ (post_content alwaysOk true none 99 store0 "  " (some "123") (some "7")).1.error_message
          = some "Empty content received") :=
  sendReply_empty_response_guard alwaysOk true ctxBlankResponse
    { intent := "respond" } { response := "   " } rfl rfl (by decide) (by decide)
    none 99 store0 "  " (by decide) (some "123") (some "7")

/-- C5 counterexample: on a context missing the `AnalyzeMessage` entry,
`SendReply.process` returns normally with the error captured into a
recorded `success=False` per-node result — it does not propagate an
exception to the caller as the claim states. -/
theorem sendReply_missing_upstream_counterexample :
    SendReply.process alwaysOk true ctxMissingAnalyze
      = ({ ctxMissingAnalyze with sendReply := some (ResponseModel.failure "Error in SendReply node: AnalyzeMessage node results not found in task context") }, 0, []) := by
  rfl

/-- C5 (amended): a missing required upstream entry raises a `ValueError`
that the node's own catch-all handler converts into a recorded
`success=False` result naming the missing node; `process` returns
normally, no delivery call is made, and nothing propagates to the
caller. -/
theorem sendReply_missing_upstream_amended
    (send : Nat → Except String Unit) (discord_bot : Bool) (ctx : TaskContext) :
    (ctx.analyzeMessage = none →
      SendReply.process send discord_bot ctx
        = ({ ctx with sendReply := some (ResponseModel.failure "Error in SendReply node: AnalyzeMessage node results not found in task context") }, 0, []))
    ∧ (∀ a, ctx.analyzeMessage = some a → ctx.generateResponse = none →
      SendReply.process send discord_bot ctx
        = ({ ctx with sendReply := some (ResponseModel.failure "Error in SendReply node: GenerateResponse node results not found in task context") }, 0, [])) := by
  constructor
  · intro hA
    simp [SendReply.process, hA]
  · intro a hA hG
    simp [SendReply.process, hA, hG]

/-- C5 witness: both missing-entry shapes at concrete contexts. -/
theorem sendReply_missing_upstream_amended_witness :
    (SendReply.process alwaysOk true ctxMissingAnalyze
      = ({ ctxMissingAnalyze with sendReply := some (ResponseModel.failure "Error in SendReply node: AnalyzeMessage node results not found in task context") }, 0, []))
    ∧ (SendReply.process alwaysOk true ctxMissingGenerate
      = ({ ctxMissingGenerate with sendReply := some (ResponseModel.failure "Error in SendReply node: GenerateResponse node results not found in task context") }, 0, [])) :=
  ⟨(sendReply_missing_upstream_amended alwaysOk true ctxMissingAnalyze).1 rfl,
   (sendReply_missing_upstream_amended alwaysOk true ctxMissingGenerate).2 { intent := "respond" } rfl rfl⟩

/-- C6 counterexample: on an always-failing delivery run the total sleep
requested by `SendReply.process` is 3 time units, not the claimed
1 + 2 + 4 = 7: no sleep follows the final attempt, so the third doubled
interval is never requested. -/
theorem sendReply_total_backoff_counterexample :
    (SendReply.process alwaysFail true okCtx).2.2.sum = 3
    ∧ ¬ ((SendReply.process alwaysFail true okCtx).2.2.sum = 7) := by
  decide

/-- C6 (amended): when every attempt fails, the backoff interval doubles
each attempt starting at 1 time unit, but only the sleeps between
attempts happen (1 then 2, none after the last attempt), so the total
sleep requested is exactly 1 + 2 = 3 time units — for both
`SendReply.process` and `post_content`. -/
theorem sendReply_total_backoff_amended
    (send : Nat → Except String Unit) (e0 e1 e2 : String)
    (h0 : send 0 = Except.error e0) (h1 : send 1 = Except.error e1)
    (h2 : send 2 = Except.error e2)
    (ctx : TaskContext) (a : AnalyzeOutput) (g : GenerateOutput)
    (ha : ctx.analyzeMessage = some a) (hg : ctx.generateResponse = some g)
    (hintent : (a.intent == "ignore") = false) (hresp : isBlank g.response = false)
    (env_channel : Option String) (now : Nat) (store : List MockItem)
    (content : String) (hcontent : isBlank content = false)
    (ch : String) (chn : Int) (hchn : pyInt ch = some chn) (hch : (ch == "") = false)
    (content_id : Option String) :
    ((SendReply.process send true ctx).2.2 = [1, 2]
      ∧ (SendReply.process send true ctx).2.2.sum = 3)
    ∧ ((post_content send true env_channel now store content (some ch) content_id).2.2.2 = [1, 2]
      ∧ (post_content send true env_channel now store content (some ch) content_id).2.2.2.sum = 3) := by
  refine ⟨⟨?_, ?_⟩, ?_, ?_⟩ <;>
    simp [SendReply.process, post_content, postAttemptLoop, sendAttemptLoop, resolveChannel, ha, hg,
      hintent, hresp, hcontent, hch, hchn, h0, h1, h2, pyTruthy]

/-- C6 witness: the always-failing oracle at concrete inputs. -/
theorem sendReply_total_backoff_amended_witness :
    ((SendReply.process alwaysFail true okCtx).2.2 = [1, 2]
      ∧ (SendReply.process alwaysFail true okCtx).2.2.sum = 3)
    ∧ ((post_content alwaysFail true none 99 store0 "some content" (some "123") (some "7")).2.2.2 = [1, 2]
      ∧ (post_content alwaysFail true none 99 store0 "some content" (some "123") (some "7")).2.2.2.sum = 3) :=
  sendReply_total_backoff_amended alwaysFail "boom0" "boom1" "boom2" rfl rfl rfl
    okCtx { intent := "respond" } { response := "hi there" } rfl rfl (by decide) (by decide)
    none 99 store0 "some content" (by decide) "123" 123 (by decide) (by decide) (some "7")

/-- C7: for a non-empty history whose most recent item's type string is
the value of a rotation member `x`, `determine_content_type` returns the
member immediately following `x` in the fixed rotation order, wrapping
from the last back to the first; for an empty history it returns the
default `MEDITATION_TIP`. -/
theorem determine_content_type_rotation
    (x : ContentType) (item : PrevItem) (rest : List PrevItem)
    (h : item.content_type = ContentType.value x) :
    determine_content_type (item :: rest) = nextTypeSpec x
    ∧ determine_content_type [] = ContentType.meditation_tip := by
  refine ⟨?_, rfl⟩
  simp only [determine_content_type, h]
  cases x <;> decide

/-- C7 witness: rotating away from `SLEEP_OPTIMIZATION`. -/
theorem determine_content_type_rotation_witness :
    determine_content_type [{ content := "c", content_type := "sleep optimization", updated_at := 5 }] = nextTypeSpec ContentType.sleep_optimization
    ∧ determine_content_type [] = ContentType.meditation_tip :=
  determine_content_type_rotation ContentType.sleep_optimization
    { content := "c", content_type := "sleep optimization", updated_at := 5 } [] rfl

/-- C8: `get_discord_bot` is a singleton accessor: with no instance and
no token it raises; with no instance and a token it constructs a bot and
stores exactly that bot in the global; with an existing instance it
returns that same instance unchanged, for any arguments, never
constructing a second one. -/
theorem get_discord_bot_singleton :
    (∀ tm, get_discord_bot none none tm
      = Except.error "Token is required when creating a new Discord bot instance")
    ∧ (∀ t tm, ∃ b, get_discord_bot none (some t) tm = Except.ok (b, some b))
    ∧ (∀ b token tm, get_discord_bot (some b) token tm = Except.ok (b, some b)) :=
  ⟨fun _ => rfl, fun _ _ => ⟨_, rfl⟩, fun _ _ _ => rfl⟩

/-- C9: `SendReply.process` is total at its interface: for every context
(well-formed or not), every delivery behaviour and every bot state, it
returns a context that contains an entry under the node's own name, whose
`ResponseModel` carries a definite boolean success flag by construction —
every internal error path is converted into a recorded result. -/
theorem sendReply_process_total (send : Nat → Except String Unit)
    (discord_bot : Bool) (ctx : TaskContext) :
    ((SendReply.process send discord_bot ctx).1.sendReply).isSome = true := by
  rcases hA : ctx.analyzeMessage with _ | a <;>
    rcases hG : ctx.generateResponse with _ | g <;>
      simp [SendReply.process, hA, hG] <;>
        split_ifs <;> simp

/-- C10: `post_content` marks stored content as posted only after a
successful delivery in the same run: whenever the returned `PostResult`
has `success=False` the store is unchanged, and without a `content_id`
the store is never touched at all. -/
theorem post_content_marks_only_on_success
    (send : Nat → Except String Unit) (discord_bot : Bool)
    (env_channel : Option String) (now : Nat) (store : List MockItem)
    (content : String) (channel_id : Option String) (content_id : Option String) :
    ((post_content send discord_bot env_channel now store content channel_id content_id).1.success = false →
      (post_content send discord_bot env_channel now store content channel_id content_id).2.1 = store)
    ∧ (content_id = none →
      (post_content send discord_bot env_channel now store content channel_id content_id).2.1 = store) := by
  constructor
  · intro hfalse
    by_cases hb : isBlank content
    · simp [post_content, hb]
    · rcases hres : resolveChannel channel_id env_channel with _ | ch
      · simp [post_content, hb, hres]
      · by_cases hbot : discord_bot
        · simp only [post_content, hb, hres, hbot, Bool.not_true, Bool.false_eq_true,
            if_false, if_true, Bool.true_eq_false] at hfalse ⊢
          exact post_loop_store_of_fail _ _ _ _ _ _ _ _ _ _ hfalse
        · simp [post_content, hb, hres, hbot]
  · intro hnone
    subst hnone
    by_cases hb : isBlank content
    · simp [post_content, hb]
    · rcases hres : resolveChannel channel_id env_channel with _ | ch
      · simp [post_content, hb, hres]
      · by_cases hbot : discord_bot
        · simp only [post_content, hb, hres, hbot, Bool.not_true, Bool.false_eq_true,
            if_false, if_true, Bool.true_eq_false]
          exact post_loop_store_of_none _ _ _ _ _ _ _ _ _
        · simp [post_content, hb, hres, hbot]

/-- C10 witness: a failed run leaves the store unchanged, and a
successful run without a `content_id` also leaves it unchanged. -/
theorem post_content_marks_only_on_success_witness :
    ((post_content alwaysFail true none 99 store0 "some content" (some "123") (some "7")).2.1 = store0)
    ∧ ((post_content alwaysOk true none 99 store0 "some content" (some "123") none).2.1 = store0) :=
  ⟨(post_content_marks_only_on_success alwaysFail true none 99 store0 "some content" (some "123") (some "7")).1 (by decide),
   (post_content_marks_only_on_success alwaysOk true none 99 store0 "some content" (some "123") none).2 rfl⟩
